import Mathlib

/-!
Shallow embedding of `charts/consul/hack/mass-pr-commenter/comment.py`.

The script shells out to the `gh` CLI and uses Python's `json` module.
External effects are modelled explicitly:

* a subprocess invocation is recorded as an `Event.toolCall` carrying the
  exact argv list the script constructs, and its standard output (already
  decoded from UTF-8 bytes to text) is supplied by an oracle
  `tool : List String → String`;
* Python's `json.loads` is modelled by the executable parser `loads`
  (JSON numbers are modelled as integers; fractional and exponent forms
  and `\u` escapes are outside the model, and no claim exercises them);
* Python runtime exceptions are modelled by `PyErr`.
-/

namespace MassPRCommenter

/-- Python runtime exceptions the script can raise. -/
inductive PyErr where
  | jsonDecodeError
  | typeError
  | keyError
  | indexError

/-- JSON values as produced by `json.loads`: objects become dictionaries
(association lists with unique keys, in insertion order), arrays become
lists, numbers are modelled as integers. -/
inductive Json where
  | null
  | bool (b : Bool)
  | num (n : Int)
  | str (s : String)
  | arr (elems : List Json)
  | obj (fields : List (String × Json))

/-- JSON insignificant whitespace. -/
def isWsChar (c : Char) : Bool :=
  c = ' ' || c = '\t' || c = '\n' || c = '\r'

/-- Drop leading JSON whitespace. -/
def skipWs : List Char → List Char
  | [] => []
  | c :: cs => if isWsChar c then skipWs cs else c :: cs

/-- Single-character JSON string escapes (`\uXXXX` is outside the model). -/
def escChar : Char → Option Char
  | '"' => some '"'
  | '\\' => some '\\'
  | '/' => some '/'
  | 'b' => some (Char.ofNat 8)
  | 'f' => some (Char.ofNat 12)
  | 'n' => some '\n'
  | 'r' => some '\r'
  | 't' => some '\t'
  | _ => none

/-- Parse the remainder of a JSON string literal (the opening quote has
been consumed), returning its characters and the rest of the input. -/
def parseStringChars : List Char → Except PyErr (List Char × List Char)
  | [] => .error .jsonDecodeError
  | c :: cs =>
    if c = '"' then .ok ([], cs)
    else if c = '\\' then
      match cs with
      | [] => .error .jsonDecodeError
      | e :: cs2 =>
        match escChar e with
        | none => .error .jsonDecodeError
        | some d =>
          match parseStringChars cs2 with
          | .error err => .error err
          | .ok (s, rest) => .ok (d :: s, rest)
    else
      match parseStringChars cs with
      | .error err => .error err
      | .ok (s, rest) => .ok (c :: s, rest)

/-- Take the leading run of decimal digits. -/
def takeDigits : List Char → List Char × List Char
  | [] => ([], [])
  | c :: cs =>
    if c.isDigit then
      let (ds, rest) := takeDigits cs
      (c :: ds, rest)
    else ([], c :: cs)

/-- Decimal value of a digit run, with accumulator. -/
def digitsVal (acc : Nat) : List Char → Nat
  | [] => acc
  | c :: cs => digitsVal (10 * acc + (c.toNat - 48)) cs

/-- Parse a JSON unsigned integer literal per the JSON grammar:
`0` stops immediately (so `01` leaves the `1` as trailing input,
as Python's parser does), otherwise a nonzero digit run. -/
def parseNat : List Char → Option (Nat × List Char)
  | [] => none
  | c :: cs =>
    if c = '0' then some (0, cs)
    else if c.isDigit then
      let (ds, rest) := takeDigits cs
      some (digitsVal (c.toNat - 48) ds, rest)
    else none

/-- Insert a key into a Python dictionary modelled as an association list:
an existing key keeps its position and gets the new value, a new key is
appended (insertion order). -/
def dictInsert : List (String × Json) → String → Json → List (String × Json)
  | [], k, v => [(k, v)]
  | (k1, v1) :: rest, k, v =>
    if k1 = k then (k1, v) :: rest else (k1, v1) :: dictInsert rest k v

mutual

/-- Parse one JSON value, fuel-bounded so the definition is structural
(and hence kernel-evaluable); `loads` supplies ample fuel. -/
def parseValue : Nat → List Char → Except PyErr (Json × List Char)
  | 0, _ => .error .jsonDecodeError
  | fuel + 1, cs =>
    match skipWs cs with
    | [] => .error .jsonDecodeError
    | c :: rest =>
      if c = '\x7b' then
        match parseMembersStart fuel rest with
        | .error e => .error e
        | .ok (fs, r) => .ok (.obj fs, r)
      else if c = '[' then
        match parseItemsStart fuel rest with
        | .error e => .error e
        | .ok (vs, r) => .ok (.arr vs, r)
      else if c = '"' then
        match parseStringChars rest with
        | .error e => .error e
        | .ok (s, r) => .ok (.str (String.mk s), r)
      else if c = 't' then
        match rest with
        | 'r' :: 'u' :: 'e' :: r => .ok (.bool true, r)
        | _ => .error .jsonDecodeError
      else if c = 'f' then
        match rest with
        | 'a' :: 'l' :: 's' :: 'e' :: r => .ok (.bool false, r)
        | _ => .error .jsonDecodeError
      else if c = 'n' then
        match rest with
        | 'u' :: 'l' :: 'l' :: r => .ok (.null, r)
        | _ => .error .jsonDecodeError
      else if c = '-' then
        match parseNat rest with
        | some (n, r) => .ok (.num (-(n : Int)), r)
        | none => .error .jsonDecodeError
      else
        match parseNat (c :: rest) with
        | some (n, r) => .ok (.num (n : Int), r)
        | none => .error .jsonDecodeError

/-- Parse array items right after the opening bracket. -/
def parseItemsStart : Nat → List Char → Except PyErr (List Json × List Char)
  | 0, _ => .error .jsonDecodeError
  | fuel + 1, cs =>
    match skipWs cs with
    | ']' :: r => .ok ([], r)
    | other =>
      match parseValue fuel other with
      | .error e => .error e
      | .ok (v, r) =>
        match parseItemsRest fuel r with
        | .error e => .error e
        | .ok (vs, r2) => .ok (v :: vs, r2)

/-- Parse remaining array items after a complete item. -/
def parseItemsRest : Nat → List Char → Except PyErr (List Json × List Char)
  | 0, _ => .error .jsonDecodeError
  | fuel + 1, cs =>
    match skipWs cs with
    | ']' :: r => .ok ([], r)
    | ',' :: r =>
      match parseValue fuel r with
      | .error e => .error e
      | .ok (v, r2) =>
        match parseItemsRest fuel r2 with
        | .error e => .error e
        | .ok (vs, r3) => .ok (v :: vs, r3)
    | _ => .error .jsonDecodeError

/-- Parse one `"key": value` object member. -/
def parseMember : Nat → List Char → Except PyErr ((String × Json) × List Char)
  | 0, _ => .error .jsonDecodeError
  | fuel + 1, cs =>
    match skipWs cs with
    | '"' :: r =>
      match parseStringChars r with
      | .error e => .error e
      | .ok (k, r2) =>
        match skipWs r2 with
        | ':' :: r3 =>
          match parseValue fuel r3 with
          | .error e => .error e
          | .ok (v, r4) => .ok ((String.mk k, v), r4)
        | _ => .error .jsonDecodeError
    | _ => .error .jsonDecodeError

/-- Parse object members right after the opening brace, building the
dictionary with Python's duplicate-key semantics via `dictInsert`. -/
def parseMembersStart : Nat → List Char → Except PyErr (List (String × Json) × List Char)
  | 0, _ => .error .jsonDecodeError
  | fuel + 1, cs =>
    match skipWs cs with
    | '\x7d' :: r => .ok ([], r)
    | other =>
      match parseMember fuel other with
      | .error e => .error e
      | .ok ((k, v), r) => parseMembersRest fuel r (dictInsert [] k v)

/-- Parse remaining object members after a complete member. -/
def parseMembersRest : Nat → List Char → List (String × Json) →
    Except PyErr (List (String × Json) × List Char)
  | 0, _, _ => .error .jsonDecodeError
  | fuel + 1, cs, acc =>
    match skipWs cs with
    | '\x7d' :: r => .ok (acc, r)
    | ',' :: r =>
      match parseMember fuel r with
      | .error e => .error e
      | .ok ((k, v), r2) => parseMembersRest fuel r2 (dictInsert acc k v)
    | _ => .error .jsonDecodeError

end

/-- Model of Python's `json.loads` on the decoded text: parse one value and
require only whitespace to remain. -/
def loads (s : String) : Except PyErr Json :=
  match parseValue (2 * s.length + 2) s.data with
  | .error e => .error e
  | .ok (j, rest) =>
    match skipWs rest with
    | [] => .ok j
    | _ => .error .jsonDecodeError

/-- Look a key up in a dictionary (association list; keys produced by
`loads` are unique, so first match is dictionary semantics). -/
def objLookup : List (String × Json) → String → Option Json
  | [], _ => none
  | (k1, v1) :: rest, k => if k1 = k then some v1 else objLookup rest k

/-- Python iteration `for pr in x`: lists yield their elements, dicts yield
their keys, strings yield their characters as one-character strings, and
numbers, booleans and `None` raise `TypeError`. -/
def pyIter : Json → Except PyErr (List Json)
  | .arr xs => .ok xs
  | .obj fs => .ok (fs.map (fun p => Json.str p.1))
  | .str s => .ok (s.data.map (fun c => Json.str (String.mk [c])))
  | _ => .error .typeError

/-- Python subscript `pr["number"]`: a dict either yields the value or
raises `KeyError`; every other value raises `TypeError` for a string
index. -/
def subscriptNumber : Json → Except PyErr Json
  | .obj fs =>
    match objLookup fs "number" with
    | some v => .ok v
    | none => .error .keyError
  | _ => .error .typeError

/-- The list comprehension `[pr["number"] for pr in items]`: evaluates
left to right and aborts at the first exception. -/
def mapNumbers : List Json → Except PyErr (List Json)
  | [] => .ok []
  | x :: xs =>
    match subscriptNumber x with
    | .error e => .error e
    | .ok v =>
      match mapNumbers xs with
      | .error e => .error e
      | .ok vs => .ok (v :: vs)

/-- The function `format` from comment.py:
`[pr["number"] for pr in loads(prs.decode("utf-8"))]`.
The argument is the tool output already decoded to text. -/
def format (prs : String) : Except PyErr (List Json) :=
  match loads prs with
  | .error e => .error e
  | .ok j =>
    match pyIter j with
    | .error e => .error e
    | .ok items => mapNumbers items

mutual

/-- Python `repr` of a JSON-shaped value (string escaping inside nested
reprs is approximated; no claim evaluates it on composite values). -/
def pyRepr : Json → String
  | .null => "None"
  | .bool true => "True"
  | .bool false => "False"
  | .num n => toString n
  | .str s => "'" ++ s ++ "'"
  | .arr xs => "[" ++ pyReprItems xs ++ "]"
  | .obj fs => "\x7b" ++ pyReprFields fs ++ "\x7d"

/-- Comma-separated reprs of list elements. -/
def pyReprItems : List Json → String
  | [] => ""
  | [x] => pyRepr x
  | x :: y :: rest => pyRepr x ++ ", " ++ pyReprItems (y :: rest)

/-- Comma-separated reprs of dict entries. -/
def pyReprFields : List (String × Json) → String
  | [] => ""
  | [(k, v)] => "'" ++ k ++ "': " ++ pyRepr v
  | (k, v) :: p :: rest => "'" ++ k ++ "': " ++ pyRepr v ++ ", " ++ pyReprFields (p :: rest)

end

/-- Python `str(pr)` as used in the comment loop: identity on strings,
`repr` otherwise (so `str(5) = "5"`). -/
def pyStr : Json → String
  | .str s => s
  | j => pyRepr j

/-- The argv list `fetch` passes to `subprocess.run`. Note the source
writes the Python literal `'"number"'`, so the `--json` argument contains
literal double-quote characters. -/
def fetchArgv (repo : String) : List String :=
  ["gh", "pr", "list", "--json", "\"number\"", "-R", repo]

/-- The function `fetch` from comment.py: runs the tool and returns its
captured standard output (modelled post-decoding as text). -/
def fetch (repo : String) (tool : List String → String) : String :=
  tool (fetchArgv repo)

/-- Observable events of a run: subprocess invocations with their argv,
the interactive prompt read, and lines printed to standard output. -/
inductive Event where
  | toolCall (argv : List String)
  | promptRead (prompt : String)
  | printLine (line : String)

/-- The argv list `comment` passes to `subprocess.run` for one pull
request. -/
def commentArgv (pr : Json) (repo comment_file : String) : List String :=
  ["gh", "pr", "comment", pyStr pr, "-F", comment_file, "-R", repo]

/-- The function `comment` from comment.py: one synchronous tool invocation
per element of `prs`, in order, joining the decoded outputs with `"".join`
(plain concatenation). Returns the event trace and the joined string. -/
def comment : List Json → String → String → (List String → String) → List Event × String
  | [], _, _, _ => ([], "")
  | pr :: rest, repo, comment_file, tool =>
    let argv := commentArgv pr repo comment_file
    let out := tool argv
    let (evs, outs) := comment rest repo comment_file tool
    (Event.toolCall argv :: evs, out ++ outs)

/-- The f-string prompt shown by the entry point. -/
def promptString (n : Nat) (repo comment_file : String) : String :=
  "Comment on " ++ toString n ++ " pull requests to the " ++ repo ++
    " repository with the contents of " ++ comment_file ++ "? [y/N] "

/-- The `__main__` block: read `argv[1]` and `argv[2]` (IndexError when
missing), fetch and parse the pull-request numbers, prompt, and comment
only when the response is exactly `"y"` or `"Y"`, then print `Done`.
`response` is the line read from standard input. -/
def mainRun (argv : List String) (tool : List String → String) (response : String) :
    Except PyErr Unit × List Event :=
  match argv[1]? with
  | none => (.error .indexError, [])
  | some repo =>
    match argv[2]? with
    | none => (.error .indexError, [])
    | some comment_file =>
      match format (fetch repo tool) with
      | .error e => (.error e, [Event.toolCall (fetchArgv repo)])
      | .ok prs =>
        let evs := [Event.toolCall (fetchArgv repo),
                    Event.promptRead (promptString prs.length repo comment_file)]
        if response = "y" ∨ response = "Y" then
          (.ok (), evs ++ (comment prs repo comment_file tool).1 ++ [Event.printLine "Done"])
        else
          (.ok (), evs)

/-- The value the comprehension extracts from one array element that is an
object carrying a `number` field (`Json.null` is a dummy off that domain). -/
def numberOf (x : Json) : Json :=
  match x with
  | .obj fs => (objLookup fs "number").getD .null
  | _ => .null

/-- Whether a JSON value is an integer. -/
def isInt : Json → Bool
  | .num _ => true
  | _ => false

example : loads "[]" = .ok (.arr []) := rfl
example : loads "\x7b\x7d" = .ok (.obj []) := rfl
example : loads "[\x7b\"number\":1\x7d,\x7b\"number\":2\x7d]" =
    .ok (.arr [.obj [("number", .num 1)], .obj [("number", .num 2)]]) := rfl
example : loads "not json" = .error .jsonDecodeError := rfl
example : loads "-12" = .ok (.num (-12)) := rfl
example : loads " [ true, null, \"ab\" ] " = .ok (.arr [.bool true, .null, .str "ab"]) := rfl
example : format "[\x7b\"number\":1\x7d,\x7b\"number\":2\x7d]" = .ok [.num 1, .num 2] := rfl
example : format "\x7b\x7d" = .ok [] := rfl
example : format "\"\"" = .ok [] := rfl
example : format "5" = .error .typeError := rfl
example : format "\x7b\"a\":1\x7d" = .error .typeError := rfl
example : format "[\x7b\"a\":1\x7d]" = .error .keyError := rfl
example : format "[1]" = .error .typeError := rfl
example : (comment [.num 5, .num 7] "org/repo" "msg.md" (fun _ => "ok\n")).2 = "ok\nok\n" := rfl
example : (comment [.num 5, .num 7] "org/repo" "msg.md" (fun _ => "ok\n")).1 =
    [.toolCall ["gh", "pr", "comment", "5", "-F", "msg.md", "-R", "org/repo"],
     .toolCall ["gh", "pr", "comment", "7", "-F", "msg.md", "-R", "org/repo"]] := rfl
example : mainRun ["comment.py", "org/repo", "msg.md"] (fun _ => "[]") "n" =
    (.ok (), [.toolCall (fetchArgv "org/repo"),
              .promptRead (promptString 0 "org/repo" "msg.md")]) := rfl
example : mainRun ["comment.py"] (fun _ => "[]") "y" = (.error .indexError, []) := rfl

/-- Unfolding `comment` on a nonempty list. -/
lemma comment_cons (pr : Json) (rest : List Json) (repo f : String)
    (tool : List String → String) :
    comment (pr :: rest) repo f tool =
      (Event.toolCall (commentArgv pr repo f) :: (comment rest repo f tool).1,
       tool (commentArgv pr repo f) ++ (comment rest repo f tool).2) := rfl

/-- The trace of `comment` is one tool invocation per identifier, in list
order. -/
lemma comment_trace_eq (prs : List Json) (repo f : String)
    (tool : List String → String) :
    (comment prs repo f tool).1 =
      prs.map (fun pr => Event.toolCall (commentArgv pr repo f)) := by
  induction prs with
  | nil => rfl
  | cons pr rest ih => rw [comment_cons, List.map_cons, ih]

/-- The string returned by `comment` is the fold of the individual decoded
outputs under append. -/
lemma comment_out_eq (prs : List Json) (repo f : String)
    (tool : List String → String) :
    (comment prs repo f tool).2 =
      (prs.map (fun pr => tool (commentArgv pr repo f))).foldr (· ++ ·) "" := by
  induction prs with
  | nil => rfl
  | cons pr rest ih => rw [comment_cons, List.map_cons, List.foldr_cons, ih]

/-- C1: for every list of identifiers `prs`, repository `repo` and comment
file `f`, the commenter performs exactly one external tool invocation per
element of `prs` (so exactly `prs.length` invocations), in sequence order,
and every invocation passes the same comment file `f` (argv slot 5, after
`-F`) and the same repository `repo` (argv slot 7, after `-R`) unchanged;
in particular for `prs = [5, 7]`, `repo = "org/repo"`, `f = "msg.md"` it
issues exactly two invocations. -/
theorem comment_invocations (prs : List Json) (repo f : String)
    (tool : List String → String) :
    (comment prs repo f tool).1 =
      prs.map (fun pr => Event.toolCall (commentArgv pr repo f)) ∧
    (comment prs repo f tool).1.length = prs.length ∧
    (∀ pr : Json, (commentArgv pr repo f)[5]? = some f ∧
      (commentArgv pr repo f)[7]? = some repo) ∧
    (comment [Json.num 5, Json.num 7] "org/repo" "msg.md" tool).1.length = 2 := by
  refine ⟨comment_trace_eq prs repo f tool, ?_, fun pr => ⟨rfl, rfl⟩, rfl⟩
  rw [comment_trace_eq, List.length_map]

/-- C2: the string returned by the commenter is the concatenation, in
sequence order, of the decoded standard-output text of each individual
invocation, with no separator inserted (the fold of append over the
individual outputs), and it is the empty string for an empty list. -/
theorem comment_output_is_concat (prs : List Json) (repo f : String)
    (tool : List String → String) :
    (comment prs repo f tool).2 =
      (prs.map (fun pr => tool (commentArgv pr repo f))).foldr (· ++ ·) "" ∧
    (comment ([] : List Json) repo f tool).2 = "" :=
  ⟨comment_out_eq prs repo f tool, rfl⟩

/-- C6: the extractor maps the empty JSON array `[]` to the empty sequence,
and the commenter applied to an empty identifier sequence performs zero
external tool invocations (and returns the empty string). -/
theorem format_empty_and_comment_empty :
    format "[]" = .ok ([] : List Json) ∧
    ∀ (repo f : String) (tool : List String → String),
      comment [] repo f tool = ([], "") :=
  ⟨rfl, fun _ _ _ => rfl⟩

/-- C7 (code bug): the `--json` selector element of the argv built by
`fetch` is the Python literal `'"number"'`, i.e. the eight-character string
whose first and last characters are double quotes — not the bare field name
`number` — while the repository string is passed through unchanged. -/
theorem fetchArgv_json_field_quoted (repo : String) :
    (fetchArgv repo)[4]? = some "\"number\"" ∧
    ("\"number\"" : String) ≠ "number" ∧
    (fetchArgv repo)[6]? = some repo :=
  ⟨rfl, by decide, rfl⟩

/-- On a list of objects that all carry a `number` field, the comprehension
succeeds and returns exactly those field values in order. -/
lemma mapNumbers_of_objects (xs : List Json)
    (h : ∀ x ∈ xs, ∃ fs, x = Json.obj fs ∧ (objLookup fs "number").isSome) :
    mapNumbers xs = .ok (xs.map numberOf) := by
  induction xs with
  | nil => rfl
  | cons a t ih =>
    obtain ⟨fs, ha, hsome⟩ := h a (List.mem_cons_self a t)
    obtain ⟨v, hv⟩ := Option.isSome_iff_exists.mp hsome
    subst ha
    rw [List.map_cons]
    simp only [mapNumbers, subscriptNumber, numberOf, hv, Option.getD_some,
      ih (fun x hx => h x (List.mem_cons_of_mem _ hx))]

/-- When the parsed value is an array, `format` reduces to the
comprehension over its elements. -/
lemma format_of_arr (s : String) (xs : List Json)
    (h : loads s = .ok (Json.arr xs)) : format s = mapNumbers xs := by
  unfold format
  rw [h]
  rfl

/-- C3: for every input that parses to a JSON array of objects each
carrying a `number` field, the extractor returns the list of those field
values in array order; in particular on the input
`[{"number":1},{"number":2}]` it returns `[1, 2]`. -/
theorem format_extracts_number_fields (s : String) (xs : List Json)
    (h : loads s = .ok (Json.arr xs))
    (hobj : ∀ x ∈ xs, ∃ fs, x = Json.obj fs ∧ (objLookup fs "number").isSome) :
    format s = .ok (xs.map numberOf) ∧
    format "[\x7b\"number\":1\x7d,\x7b\"number\":2\x7d]" =
      .ok [Json.num 1, Json.num 2] := by
  refine ⟨?_, rfl⟩
  rw [format_of_arr s xs h, mapNumbers_of_objects xs hobj]

/-- Witness for C3 at the spec's concrete input. -/
theorem format_extracts_number_fields_witness :
    format "[\x7b\"number\":1\x7d,\x7b\"number\":2\x7d]" =
      .ok ([Json.obj [("number", Json.num 1)],
            Json.obj [("number", Json.num 2)]].map numberOf) :=
  (format_extracts_number_fields "[\x7b\"number\":1\x7d,\x7b\"number\":2\x7d]"
    [Json.obj [("number", Json.num 1)], Json.obj [("number", Json.num 2)]]
    rfl
    (by
      intro x hx
      rcases List.mem_cons.mp hx with h1 | hx2
      · exact ⟨[("number", Json.num 1)], h1, by decide⟩
      · rcases List.mem_cons.mp hx2 with h2 | h3
        · exact ⟨[("number", Json.num 2)], h2, by decide⟩
        · cases h3)).1

/-- C8 counterexample: on `[{"number":null}]` the extractor succeeds and
returns the non-integer value `null` — the comprehension passes the field
value through without coercion, so the claim that every accepted output
element is an integer regardless of the field's JSON type is false. -/
theorem format_number_field_not_coerced :
    format "[\x7b\"number\":null\x7d]" = .ok [Json.null] ∧
    isInt Json.null = false :=
  ⟨rfl, rfl⟩

/-- C8 amended: the extractor returns the `number` field values verbatim,
so every element of its output is an integer provided every `number` field
in the input array is a JSON integer (the `list[int]` annotation is not
enforced at runtime). -/
theorem format_ints_when_fields_are_ints (s : String) (xs : List Json)
    (h : loads s = .ok (Json.arr xs))
    (hint : ∀ x ∈ xs, ∃ fs n, x = Json.obj fs ∧
      objLookup fs "number" = some (Json.num n)) :
    ∃ ns, format s = .ok ns ∧ ∀ v ∈ ns, isInt v = true := by
  refine ⟨xs.map numberOf, ?_, ?_⟩
  · rw [format_of_arr s xs h]
    exact mapNumbers_of_objects xs (fun x hx => by
      obtain ⟨fs, n, hxo, hn⟩ := hint x hx
      exact ⟨fs, hxo, by rw [hn]; rfl⟩)
  · intro v hv
    obtain ⟨x, hx, hvx⟩ := List.mem_map.mp hv
    obtain ⟨fs, n, hxo, hn⟩ := hint x hx
    subst hxo
    rw [← hvx]
    simp only [numberOf, hn, Option.getD_some]
    rfl

/-- Witness for C8's amended statement at a one-element array. -/
theorem format_ints_when_fields_are_ints_witness :
    ∃ ns, format "[\x7b\"number\":3\x7d]" = .ok ns ∧ ∀ v ∈ ns, isInt v = true :=
  format_ints_when_fields_are_ints "[\x7b\"number\":3\x7d]"
    [Json.obj [("number", Json.num 3)]]
    rfl
    (by
      intro x hx
      rcases List.mem_cons.mp hx with h1 | h2
      · exact ⟨[("number", Json.num 3)], 3, h1, rfl⟩
      · cases h2)

/-- If some element of the list makes the subscript raise, the whole
comprehension raises. -/
lemma mapNumbers_error_of_mem (xs : List Json) (x : Json) (hx : x ∈ xs)
    (he : ∃ e, subscriptNumber x = .error e) :
    ∃ e, mapNumbers xs = .error e := by
  induction xs with
  | nil => cases hx
  | cons a t ih =>
    rcases List.mem_cons.mp hx with h1 | h2
    · subst h1
      obtain ⟨e, he⟩ := he
      exact ⟨e, by simp only [mapNumbers, he]⟩
    · cases hsub : subscriptNumber a with
      | error e => exact ⟨e, by simp only [mapNumbers, hsub]⟩
      | ok v =>
        obtain ⟨e, hm⟩ := ih h2
        exact ⟨e, by simp only [mapNumbers, hsub, hm]⟩

/-- C5: a parse failure in the extractor propagates (so no identifiers are
produced); the concrete text `not json` fails to parse; an array element
that is an object lacking the `number` field makes the extractor raise; and
in the entry point an extraction failure surfaces after the single listing
invocation but before the confirmation prompt and before any comment
invocation, so zero comments are posted. -/
theorem format_error_before_comments :
    (∀ (s : String) (e : PyErr), loads s = .error e → format s = .error e) ∧
    format "not json" = .error PyErr.jsonDecodeError ∧
    (∀ (s : String) (xs : List Json), loads s = .ok (Json.arr xs) →
      (∃ x ∈ xs, ∃ fs, x = Json.obj fs ∧ objLookup fs "number" = none) →
      ∃ e, format s = .error e) ∧
    (∀ (argv : List String) (tool : List String → String)
        (response repo f : String) (e : PyErr),
      argv[1]? = some repo → argv[2]? = some f →
      format (fetch repo tool) = .error e →
      mainRun argv tool response = (.error e, [Event.toolCall (fetchArgv repo)])) := by
  refine ⟨?_, rfl, ?_, ?_⟩
  · intro s e h
    unfold format
    rw [h]
  · intro s xs h hx
    obtain ⟨x, hmem, fs, hxo, hnone⟩ := hx
    rw [format_of_arr s xs h]
    refine mapNumbers_error_of_mem xs x hmem ⟨PyErr.keyError, ?_⟩
    subst hxo
    simp only [subscriptNumber, hnone]
  · intro argv tool response repo f e h1 h2 h3
    unfold mainRun
    rw [h1, h2]
    dsimp only
    rw [h3]

/-- Witness for C5: with the tool answering `not json` to the listing
request, the run stops with a JSON decode error right after the single
listing invocation, issuing no comment invocation. -/
theorem format_error_before_comments_witness :
    mainRun ["comment.py", "org/repo", "msg.md"] (fun _ => "not json") "y" =
      (.error PyErr.jsonDecodeError, [Event.toolCall (fetchArgv "org/repo")]) :=
  format_error_before_comments.2.2.2
    ["comment.py", "org/repo", "msg.md"] (fun _ => "not json") "y"
    "org/repo" "msg.md" PyErr.jsonDecodeError rfl rfl rfl

/-- C9 counterexample: the bare (empty) JSON object `{}` is valid JSON
whose top-level value is not an array of objects, yet the extractor does
not raise: iterating the empty dictionary yields no keys, so it returns the
empty list. -/
theorem format_empty_object_succeeds :
    format "\x7b\x7d" = .ok ([] : List Json) := rfl

/-- A nonempty string differs from the empty string exactly in its
character list. -/
lemma data_ne_nil_of_ne_empty {t : String} (h : t ≠ "") : t.data ≠ [] := by
  intro hd
  exact h (String.ext_iff.mpr (by rw [hd]))

/-- Subscripting any non-dictionary value with a string raises
`TypeError`. -/
lemma subscriptNumber_error_of_not_obj (x : Json)
    (h : ∀ fs, x ≠ Json.obj fs) : subscriptNumber x = .error .typeError := by
  cases x with
  | obj fs => exact absurd rfl (h fs)
  | null => rfl
  | bool b => rfl
  | num n => rfl
  | str s => rfl
  | arr xs => rfl

/-- C9 amended: on valid JSON whose top-level value is not an array of
objects the extractor raises in every case except two: a number, boolean or
`null` raises `TypeError` (not iterable); a nonempty object iterates over
its string keys and a nonempty string over its characters, and subscripting
those raises; an array containing a non-object element raises; but the
empty object and the empty string iterate over nothing and return the empty
list without error. -/
theorem format_non_array_cases (s : String) :
    (∀ n : Int, loads s = .ok (Json.num n) → format s = .error PyErr.typeError) ∧
    (∀ b : Bool, loads s = .ok (Json.bool b) → format s = .error PyErr.typeError) ∧
    (loads s = .ok Json.null → format s = .error PyErr.typeError) ∧
    (∀ k v fs, loads s = .ok (Json.obj ((k, v) :: fs)) →
      format s = .error PyErr.typeError) ∧
    (∀ t : String, loads s = .ok (Json.str t) → t ≠ "" →
      format s = .error PyErr.typeError) ∧
    (∀ xs : List Json, loads s = .ok (Json.arr xs) →
      (∃ x ∈ xs, ∀ fs, x ≠ Json.obj fs) → ∃ e, format s = .error e) ∧
    (loads s = .ok (Json.obj []) → format s = .ok []) ∧
    (loads s = .ok (Json.str "") → format s = .ok []) := by
  refine ⟨?_, ?_, ?_, ?_, ?_, ?_, ?_, ?_⟩
  · intro n h; unfold format; rw [h]; rfl
  · intro b h; unfold format; rw [h]; rfl
  · intro h; unfold format; rw [h]; rfl
  · intro k v fs h; unfold format; rw [h]; rfl
  · intro t h ht
    obtain ⟨c, cs, hd⟩ := List.exists_cons_of_ne_nil (data_ne_nil_of_ne_empty ht)
    unfold format
    rw [h]
    simp only [pyIter, hd, List.map_cons]
    rfl
  · intro xs h hx
    obtain ⟨x, hmem, hno⟩ := hx
    rw [format_of_arr s xs h]
    exact mapNumbers_error_of_mem xs x hmem
      ⟨PyErr.typeError, subscriptNumber_error_of_not_obj x hno⟩
  · intro h; unfold format; rw [h]; rfl
  · intro h; unfold format; rw [h]; rfl

/-- Witness for C9's amended statement: a number, a nonempty object and a
nonempty string all make the extractor raise, at concrete inputs. -/
theorem format_non_array_cases_witness :
    format "5" = .error PyErr.typeError ∧
    format "\x7b\"a\":1\x7d" = .error PyErr.typeError ∧
    format "\"ab\"" = .error PyErr.typeError ∧
    (∃ e, format "[1]" = .error e) :=
  ⟨(format_non_array_cases "5").1 5 rfl,
   (format_non_array_cases "\x7b\"a\":1\x7d").2.2.2.1 "a" (Json.num 1) [] rfl,
   (format_non_array_cases "\"ab\"").2.2.2.2.1 "ab" rfl (by decide),
   (format_non_array_cases "[1]").2.2.2.2.2.1 [Json.num 1] rfl
     ⟨Json.num 1, List.mem_cons_self _ _, fun fs h => Json.noConfusion h⟩⟩

/-- C4: with the listing parsed successfully, the entry point runs the
comment step if and only if the line read from standard input is exactly
`"y"` or exactly `"Y"`: on confirmation the trace is the listing call, the
prompt, the comment invocations and then the completion marker `Done`; on
any other response the run ends without error after the prompt, with zero
comment invocations and no marker. -/
theorem mainRun_confirmation (argv : List String) (tool : List String → String)
    (response repo f : String) (prs : List Json)
    (h1 : argv[1]? = some repo) (h2 : argv[2]? = some f)
    (h3 : format (fetch repo tool) = .ok prs) :
    ((response = "y" ∨ response = "Y") →
      mainRun argv tool response =
        (.ok (), [Event.toolCall (fetchArgv repo),
                  Event.promptRead (promptString prs.length repo f)] ++
                 (comment prs repo f tool).1 ++ [Event.printLine "Done"])) ∧
    (¬(response = "y" ∨ response = "Y") →
      mainRun argv tool response =
        (.ok (), [Event.toolCall (fetchArgv repo),
                  Event.promptRead (promptString prs.length repo f)])) := by
  constructor
  · intro hr
    unfold mainRun
    rw [h1, h2]
    dsimp only
    rw [h3]
    dsimp only
    rw [if_pos hr]
  · intro hr
    unfold mainRun
    rw [h1, h2]
    dsimp only
    rw [h3]
    dsimp only
    rw [if_neg hr]

/-- Witness for C4: the response `"n"` leaves the run at the prompt with no
comment invocation and no error. -/
theorem mainRun_confirmation_witness :
    ¬(("n" : String) = "y" ∨ ("n" : String) = "Y") ∧
    mainRun ["comment.py", "org/repo", "msg.md"] (fun _ => "[]") "n" =
      (.ok (), [Event.toolCall (fetchArgv "org/repo"),
                Event.promptRead (promptString 0 "org/repo" "msg.md")]) :=
  ⟨by decide,
   (mainRun_confirmation ["comment.py", "org/repo", "msg.md"] (fun _ => "[]")
      "n" "org/repo" "msg.md" [] rfl rfl rfl).2 (by decide)⟩

/-- C10: started with fewer than two positional arguments (an argv of
length below three, counting the program name), the entry point raises
`IndexError` while reading the arguments, with an empty trace: no tool
invocation, no prompt, no comment. -/
theorem mainRun_missing_args (argv : List String) (tool : List String → String)
    (response : String) (h : argv.length < 3) :
    mainRun argv tool response = (.error PyErr.indexError, []) := by
  match argv with
  | [] => rfl
  | [a] => rfl
  | [a, b] => rfl
  | a :: b :: c :: t =>
    exact absurd h (by simp)

/-- Witness for C10 with only the program name present. -/
theorem mainRun_missing_args_witness :
    (["comment.py"] : List String).length < 3 ∧
    mainRun ["comment.py"] (fun _ => "") "" = (.error PyErr.indexError, []) :=
  ⟨by decide, mainRun_missing_args ["comment.py"] (fun _ => "") "" (by decide)⟩

end MassPRCommenter
